import Mathlib

/-!
Verification of the ceviche service/daemon wrapper library.

The data types `Error` and `ServiceEvent<T>` with their trait
implementations are embedded from `src/lib.rs`.  The `Session` type, the
control-code decoder, the event channel, the Controller operations and
the Control Bridge entry point live in the `controller`/`session`
modules, which are not part of the provided sources; those are modelled
from the specification (each such definition says so in its doc
comment).
-/

namespace Ceviche

/-- `pub struct Error { pub message: String }` (src/lib.rs, lines 83-86). -/
structure Error where
  message : String
deriving DecidableEq

/-- `Error::new` (src/lib.rs, lines 106-112): builds an `Error` whose
`message` field is `String::from(message)`, i.e. the given text. -/
def Error.new (message : String) : Error :=
  { message := message }

/-- `impl From<&str> for Error` (src/lib.rs, lines 88-92): builds an
`Error` whose `message` field is `message.to_string()`. -/
def Error.fromStr (message : String) : Error :=
  { message := message }

/-- `impl fmt::Display for Error` (src/lib.rs, lines 94-98):
`write!(f, "{}", self.message)`. -/
def Error.display (e : Error) : String :=
  e.message

/-- `impl std::error::Error for Error` (src/lib.rs, lines 100-104):
`description` returns `&self.message`. -/
def Error.description (e : Error) : String :=
  e.message

/-- Modelled from the spec: `Session` (module `session`, absent from the
provided sources) wraps a native session identifier (an unsigned
integer) and is immutable. -/
structure Session where
  id : Nat
deriving DecidableEq

/-- Modelled from the spec: `Session` is displayable as its numeric
value. -/
def Session.display (s : Session) : String :=
  toString s.id

/-- `pub enum ServiceEvent<T>` (src/lib.rs, lines 115-128). -/
inductive ServiceEvent (T : Type) where
  | Continue
  | Pause
  | Stop
  | SessionConnect (s : Session)
  | SessionDisconnect (s : Session)
  | SessionRemoteConnect (s : Session)
  | SessionRemoteDisconnect (s : Session)
  | SessionLogon (s : Session)
  | SessionLogoff (s : Session)
  | SessionLock (s : Session)
  | SessionUnlock (s : Session)
  | Custom (t : T)

/-- `impl<T> fmt::Display for ServiceEvent<T>` (src/lib.rs,
lines 130-147): a fixed label per variant, with the session identifier
interpolated for the session-carrying variants and the payload of
`Custom` ignored. -/
def ServiceEvent.display {T : Type} : ServiceEvent T → String
  | .Continue => "Continue"
  | .Pause => "Pause"
  | .Stop => "Stop"
  | .SessionConnect id => "SessionConnect(" ++ id.display ++ ")"
  | .SessionDisconnect id => "SessionDisconnect(" ++ id.display ++ ")"
  | .SessionRemoteConnect id => "SessionRemoteConnect(" ++ id.display ++ ")"
  | .SessionRemoteDisconnect id => "SessionRemoteDisconnect(" ++ id.display ++ ")"
  | .SessionLogon id => "SessionLogon(" ++ id.display ++ ")"
  | .SessionLogoff id => "SessionLogoff(" ++ id.display ++ ")"
  | .SessionLock id => "SessionLock(" ++ id.display ++ ")"
  | .SessionUnlock id => "SessionUnlock(" ++ id.display ++ ")"
  | .Custom _ => "Custom"

/-- The tag of a `ServiceEvent` variant: its position (0-11) in the
declaration order of the twelve constructors of the enum. -/
def ServiceEvent.tag {T : Type} : ServiceEvent T → Fin 12
  | .Continue => 0
  | .Pause => 1
  | .Stop => 2
  | .SessionConnect _ => 3
  | .SessionDisconnect _ => 4
  | .SessionRemoteConnect _ => 5
  | .SessionRemoteDisconnect _ => 6
  | .SessionLogon _ => 7
  | .SessionLogoff _ => 8
  | .SessionLock _ => 9
  | .SessionUnlock _ => 10
  | .Custom _ => 11

/-- `e` is an instance of the `k`-th of the twelve variants of the enum,
in declaration order. -/
def ServiceEvent.matchesVariant {T : Type} (k : Fin 12) (e : ServiceEvent T) : Prop :=
  match k.val with
  | 0 => e = ServiceEvent.Continue
  | 1 => e = ServiceEvent.Pause
  | 2 => e = ServiceEvent.Stop
  | 3 => ∃ s, e = ServiceEvent.SessionConnect s
  | 4 => ∃ s, e = ServiceEvent.SessionDisconnect s
  | 5 => ∃ s, e = ServiceEvent.SessionRemoteConnect s
  | 6 => ∃ s, e = ServiceEvent.SessionRemoteDisconnect s
  | 7 => ∃ s, e = ServiceEvent.SessionLogon s
  | 8 => ∃ s, e = ServiceEvent.SessionLogoff s
  | 9 => ∃ s, e = ServiceEvent.SessionLock s
  | 10 => ∃ s, e = ServiceEvent.SessionUnlock s
  | _ => ∃ t, e = ServiceEvent.Custom t

theorem ServiceEvent.matchesVariant_iff_tag {T : Type} (k : Fin 12) (e : ServiceEvent T) :
    e.matchesVariant k ↔ k = e.tag := by
  cases e <;> fin_cases k <;>
    simp [ServiceEvent.matchesVariant, ServiceEvent.tag, Fin.ext_iff] <;> decide

/-- C3: `ServiceEvent<T>` is a closed set of exactly twelve variants, and
every event instance is an instance of exactly one of them. -/
theorem serviceEvent_exactly_one_variant {T : Type} (e : ServiceEvent T) :
    ∃! k : Fin 12, e.matchesVariant k := by
  refine ⟨e.tag, ?_, fun k hk => ?_⟩
  · exact (ServiceEvent.matchesVariant_iff_tag e.tag e).mpr rfl
  · exact (ServiceEvent.matchesVariant_iff_tag k e).mp hk

/-- Modelled from the spec: the native control codes and session-change
notifications that the control manager delivers to the control handler
(the `controller` module is absent from the provided sources).  The
supported codes are the eleven rows of the decoding table in §4.1;
`other n` stands for any other native code, identified by its raw
numeric value. -/
inductive NativeCode where
  | stopCode
  | pauseCode
  | continueCode
  | sessionConnect (s : Session)
  | sessionDisconnect (s : Session)
  | sessionRemoteConnect (s : Session)
  | sessionRemoteDisconnect (s : Session)
  | sessionLogon (s : Session)
  | sessionLogoff (s : Session)
  | sessionLock (s : Session)
  | sessionUnlock (s : Session)
  | other (n : Nat)

/-- Modelled from the spec: the control handler's decoding of native
control codes into `ServiceEvent` values, per the table in §4.1;
unrecognized codes are dropped and produce no event. -/
def decode {T : Type} : NativeCode → Option (ServiceEvent T)
  | .stopCode => some ServiceEvent.Stop
  | .pauseCode => some ServiceEvent.Pause
  | .continueCode => some ServiceEvent.Continue
  | .sessionConnect s => some (ServiceEvent.SessionConnect s)
  | .sessionDisconnect s => some (ServiceEvent.SessionDisconnect s)
  | .sessionRemoteConnect s => some (ServiceEvent.SessionRemoteConnect s)
  | .sessionRemoteDisconnect s => some (ServiceEvent.SessionRemoteDisconnect s)
  | .sessionLogon s => some (ServiceEvent.SessionLogon s)
  | .sessionLogoff s => some (ServiceEvent.SessionLogoff s)
  | .sessionLock s => some (ServiceEvent.SessionLock s)
  | .sessionUnlock s => some (ServiceEvent.SessionUnlock s)
  | .other _ => none

/-- C1: `decode` is a total deterministic function (it is a Lean
function) mapping each supported native code or session notification to
exactly the one corresponding `ServiceEvent` variant of the spec's
table, with the session attached where present, and mapping every
unrecognized native code to no event. -/
theorem decode_spec_table (T : Type) :
    decode NativeCode.stopCode = some (ServiceEvent.Stop : ServiceEvent T) ∧
    decode NativeCode.pauseCode = some (ServiceEvent.Pause : ServiceEvent T) ∧
    decode NativeCode.continueCode = some (ServiceEvent.Continue : ServiceEvent T) ∧
    (∀ s : Session,
      decode (NativeCode.sessionConnect s)
        = some (ServiceEvent.SessionConnect s : ServiceEvent T) ∧
      decode (NativeCode.sessionDisconnect s)
        = some (ServiceEvent.SessionDisconnect s : ServiceEvent T) ∧
      decode (NativeCode.sessionRemoteConnect s)
        = some (ServiceEvent.SessionRemoteConnect s : ServiceEvent T) ∧
      decode (NativeCode.sessionRemoteDisconnect s)
        = some (ServiceEvent.SessionRemoteDisconnect s : ServiceEvent T) ∧
      decode (NativeCode.sessionLogon s)
        = some (ServiceEvent.SessionLogon s : ServiceEvent T) ∧
      decode (NativeCode.sessionLogoff s)
        = some (ServiceEvent.SessionLogoff s : ServiceEvent T) ∧
      decode (NativeCode.sessionLock s)
        = some (ServiceEvent.SessionLock s : ServiceEvent T) ∧
      decode (NativeCode.sessionUnlock s)
        = some (ServiceEvent.SessionUnlock s : ServiceEvent T)) ∧
    (∀ n : Nat, decode (NativeCode.other n) = (none : Option (ServiceEvent T))) := by
  exact ⟨rfl, rfl, rfl, fun s => ⟨rfl, rfl, rfl, rfl, rfl, rfl, rfl, rfl⟩, fun n => rfl⟩

/-- C2: every `ServiceEvent` displays as the fixed label of its variant,
session-carrying variants appending the session's numeric identifier in
parentheses; in particular `SessionLogon` with session id 7 displays as
`SessionLogon(7)`. -/
theorem serviceEvent_display_spec (T : Type) :
    (ServiceEvent.Continue : ServiceEvent T).display = "Continue" ∧
    (ServiceEvent.Pause : ServiceEvent T).display = "Pause" ∧
    (ServiceEvent.Stop : ServiceEvent T).display = "Stop" ∧
    (∀ s : Session,
      (ServiceEvent.SessionConnect s : ServiceEvent T).display
        = "SessionConnect(" ++ toString s.id ++ ")" ∧
      (ServiceEvent.SessionDisconnect s : ServiceEvent T).display
        = "SessionDisconnect(" ++ toString s.id ++ ")" ∧
      (ServiceEvent.SessionRemoteConnect s : ServiceEvent T).display
        = "SessionRemoteConnect(" ++ toString s.id ++ ")" ∧
      (ServiceEvent.SessionRemoteDisconnect s : ServiceEvent T).display
        = "SessionRemoteDisconnect(" ++ toString s.id ++ ")" ∧
      (ServiceEvent.SessionLogon s : ServiceEvent T).display
        = "SessionLogon(" ++ toString s.id ++ ")" ∧
      (ServiceEvent.SessionLogoff s : ServiceEvent T).display
        = "SessionLogoff(" ++ toString s.id ++ ")" ∧
      (ServiceEvent.SessionLock s : ServiceEvent T).display
        = "SessionLock(" ++ toString s.id ++ ")" ∧
      (ServiceEvent.SessionUnlock s : ServiceEvent T).display
        = "SessionUnlock(" ++ toString s.id ++ ")") ∧
    (∀ t : T, (ServiceEvent.Custom t : ServiceEvent T).display = "Custom") ∧
    (ServiceEvent.SessionLogon ⟨7⟩ : ServiceEvent T).display = "SessionLogon(7)" := by
  refine ⟨rfl, rfl, rfl, fun s => ⟨rfl, rfl, rfl, rfl, rfl, rfl, rfl, rfl⟩, fun t => rfl, rfl⟩

/-- C4: `Error::new m` stores exactly the message `m`, an `Error` is
determined by its message alone, and displaying it yields the message
back unchanged. -/
theorem error_new_display_roundtrip (m : String) (e₁ e₂ : Error)
    (h : e₁.message = e₂.message) :
    (Error.new m).message = m ∧ (Error.new m).display = m ∧ e₁ = e₂ := by
  refine ⟨rfl, rfl, ?_⟩
  cases e₁
  cases e₂
  simpa using h

/-- Witness for C4 at concrete inputs. -/
theorem error_new_display_roundtrip_witness :
    (Error.new "boom").message = "boom" ∧
    (Error.new "boom").display = "boom" ∧
    Error.new "x" = Error.fromStr "x" :=
  error_new_display_roundtrip "boom" (Error.new "x") (Error.fromStr "x") rfl

/-- C8: displaying a `Custom` event reveals nothing about its payload:
any two payloads display identically, as the fixed string `Custom`. -/
theorem custom_display_noninterference (T : Type) (x y : T) :
    (ServiceEvent.Custom x : ServiceEvent T).display
      = (ServiceEvent.Custom y : ServiceEvent T).display ∧
    (ServiceEvent.Custom x : ServiceEvent T).display = "Custom" :=
  ⟨rfl, rfl⟩

/-- C9: the `From<&str>` conversion and `Error::new` agree: both store
the given string as the message and produce equal `Error` values. -/
theorem error_fromStr_eq_new (s : String) :
    (Error.fromStr s).message = s ∧ Error.fromStr s = Error.new s :=
  ⟨rfl, rfl⟩

/-- C10: the `std::error::Error` implementation is consistent with the
stored text: `description` returns exactly the `message` field. -/
theorem error_description_eq_message (e : Error) :
    e.description = e.message :=
  rfl

/-- Modelled from the spec: the single-producer/single-consumer event
channel between the control handler and the service-main function (the
channel is `std::sync::mpsc`, outside the provided sources).  Its state
is the queue of sent-but-not-yet-received events, oldest first. -/
structure Channel (E : Type) where
  queue : List E

/-- Modelled from the spec: the producer pushes an event at the back of
the queue; the channel is unbounded, so no event is ever dropped. -/
def Channel.send {E : Type} (c : Channel E) (e : E) : Channel E :=
  ⟨c.queue ++ [e]⟩

/-- Modelled from the spec: the consumer takes the oldest queued event,
or blocks (here: observes nothing) when the queue is empty. -/
def Channel.recv {E : Type} (c : Channel E) : Option (E × Channel E) :=
  match c.queue with
  | [] => none
  | e :: rest => some (e, ⟨rest⟩)

/-- An action on the channel: the producer sends an event, or the
consumer attempts a receive. -/
inductive ChanAct (E : Type) where
  | send (e : E)
  | recv

/-- One step of a channel run: the pair is the channel together with the
list of events the consumer has received so far, oldest first.  A
receive on an empty queue leaves the state unchanged (the consumer
blocks). -/
def chanStep {E : Type} : Channel E × List E → ChanAct E → Channel E × List E
  | (c, r), .send e => (c.send e, r)
  | (c, r), .recv =>
    match c.recv with
    | none => (c, r)
    | some (e, c') => (c', r ++ [e])

/-- Run a sequence of channel actions from the empty channel with no
events received yet. -/
def chanRun {E : Type} (acts : List (ChanAct E)) : Channel E × List E :=
  acts.foldl chanStep (⟨[]⟩, [])

/-- The events sent over a sequence of channel actions, in order. -/
def sentOf {E : Type} : List (ChanAct E) → List E
  | [] => []
  | .send e :: rest => e :: sentOf rest
  | .recv :: rest => sentOf rest

theorem chanRun_invariant {E : Type} (acts : List (ChanAct E)) :
    ∀ (c : Channel E) (r : List E),
      (acts.foldl chanStep (c, r)).2 ++ (acts.foldl chanStep (c, r)).1.queue
        = r ++ c.queue ++ sentOf acts := by
  induction acts with
  | nil => intro c r; simp [sentOf]
  | cons a rest ih =>
    intro c r
    cases a with
    | send e =>
      simp only [List.foldl_cons, chanStep, sentOf]
      rw [ih]
      simp [Channel.send]
    | recv =>
      simp only [List.foldl_cons, chanStep, sentOf]
      cases hq : c.queue with
      | nil =>
        have : c.recv = none := by simp [Channel.recv, hq]
        rw [this, ih]
        simp [hq]
      | cons e rest' =>
        have : c.recv = some (e, ⟨rest'⟩) := by simp [Channel.recv, hq]
        rw [this, ih]
        simp [hq]

/-- C5: the channel preserves FIFO order with no loss and no
reordering.  For every interleaving of sends and receives starting from
the empty channel, the events the consumer has received followed by the
events still queued are exactly the events the producer sent, in send
order; in particular sending `Continue, Pause, Stop` in that order and
receiving three times delivers exactly `Continue, Pause, Stop` in that
order. -/
theorem channel_fifo_no_loss (E : Type) (acts : List (ChanAct E)) :
    ((chanRun acts).2 ++ (chanRun acts).1.queue = sentOf acts) ∧
    (chanRun
        [ChanAct.send (ServiceEvent.Continue : ServiceEvent Unit),
         ChanAct.send ServiceEvent.Pause, ChanAct.send ServiceEvent.Stop,
         ChanAct.recv, ChanAct.recv, ChanAct.recv]).2
      = [ServiceEvent.Continue, ServiceEvent.Pause, ServiceEvent.Stop] := by
  constructor
  · simpa [chanRun] using chanRun_invariant acts ⟨[]⟩ []
  · rfl

/-- Which outcomes the native service API yields during one Controller
operation: whether opening the service (or service-database) handle
succeeds, and whether the native call made with that handle (install,
mark-for-deletion, start or stop control request) succeeds. -/
structure NativeEnv where
  openOk : Bool
  callOk : Bool

/-- An observable action on a native handle. -/
inductive HandleAct where
  | openH
  | closeH
deriving DecidableEq

/-- Modelled from the spec: the shared shape of the Controller
operations `create`, `delete`, `start`, `stop` (the `controller` module
is absent from the provided sources): open a handle — failing with an
`Error` if that is denied — then perform the native call, then release
the handle regardless of the call's outcome, returning an `Error` if
the call failed.  The returned list is the trace of handle actions. -/
def controllerOp (errOpen errCall : String) (env : NativeEnv) :
    Except Error Unit × List HandleAct :=
  if env.openOk then
    if env.callOk then
      (Except.ok (), [HandleAct.openH, HandleAct.closeH])
    else
      (Except.error (Error.new errCall), [HandleAct.openH, HandleAct.closeH])
  else
    (Except.error (Error.new errOpen), [])

/-- Modelled from the spec: `Controller::create`. -/
def createOp (env : NativeEnv) : Except Error Unit × List HandleAct :=
  controllerOp "failed to open the service database" "failed to create the service" env

/-- Modelled from the spec: `Controller::delete`. -/
def deleteOp (env : NativeEnv) : Except Error Unit × List HandleAct :=
  controllerOp "failed to open the service" "failed to delete the service" env

/-- Modelled from the spec: `Controller::start`. -/
def startOp (env : NativeEnv) : Except Error Unit × List HandleAct :=
  controllerOp "failed to open the service" "failed to start the service" env

/-- Modelled from the spec: `Controller::stop`. -/
def stopOp (env : NativeEnv) : Except Error Unit × List HandleAct :=
  controllerOp "failed to open the service" "failed to stop the service" env

/-- A handle trace is disciplined when every open is matched by exactly
one close before the operation returns: opens and closes balance, at
most one handle is ever opened per operation, and each close follows
the open. -/
def disciplined (tr : List HandleAct) : Prop :=
  tr.count HandleAct.openH = tr.count HandleAct.closeH ∧
  tr.count HandleAct.openH ≤ 1 ∧
  (tr = [] ∨ tr = [HandleAct.openH, HandleAct.closeH])

/-- C6: every Controller operation (`create`, `delete`, `start`,
`stop`) releases any handle it opened exactly once before returning, on
the success path and on every error path — including a failing native
call after handle acquisition — so no handle outlives the operation;
moreover an opened handle is always released. -/
theorem controller_handle_discipline (env : NativeEnv) :
    disciplined (createOp env).2 ∧ disciplined (deleteOp env).2 ∧
    disciplined (startOp env).2 ∧ disciplined (stopOp env).2 ∧
    (startOp ⟨true, false⟩).2 = [HandleAct.openH, HandleAct.closeH] := by
  have h : ∀ e₁ e₂ : String, disciplined (controllerOp e₁ e₂ env).2 := by
    intro e₁ e₂
    cases ho : env.openOk <;> cases hc : env.callOk <;>
      simp [controllerOp, disciplined, ho, hc]
  exact ⟨h _ _, h _ _, h _ _, h _ _, rfl⟩

/-- A status report made by the Control Bridge to the control
manager. -/
inductive Status where
  | startPending
  | running
  | stopped (exitCode : Nat)
deriving DecidableEq

/-- Modelled from the spec: the Control Bridge entry point (the
`controller` module is absent from the provided sources): it reports
`StartPending`, runs the application's service-main function `f` on the
delivered arguments, and after `f` returns reports `Stopped` carrying
`f`'s exit code verbatim and releases the status handle. -/
def runEntry (f : List String → Nat) (args : List String) :
    List Status × Bool :=
  ([Status.startPending, Status.stopped (f args)], true)

/-- C7: the exit code the application's service-main function returns —
any unsigned 32-bit value — is reported unmodified as the exit code of
the final `Stopped` status report. -/
theorem exit_code_forwarded (f : List String → Nat) (args : List String)
    (_h : f args < 2 ^ 32) :
    (runEntry f args).1.getLast? = some (Status.stopped (f args)) := by
  rfl

/-- Witness for C7 at a concrete service-main returning exit code 7. -/
theorem exit_code_forwarded_witness :
    (runEntry (fun _ => 7) []).1.getLast? = some (Status.stopped 7) :=
  exit_code_forwarded (fun _ => 7) [] (by decide)

end Ceviche
